import Mathlib

/-!
Shallow embedding of the alert pipeline of `src/app.py` (a Streamlit smart
monitoring dashboard): detection adapter (`detect_events`), alert gate and
dispatch (`trigger_alert` with `send_email` / `send_sms`), the frame loop
(`run_camera`), and the registration handler (`register_page`).

Modelling conventions:
* wall-clock times (`time.time()`), taken as whole seconds, are `Int`;
* model confidences (Python floats compared with `>=`) are `Rat`;
* network side effects (SMTP, HTTP POST) are driven by boolean environment
  flags saying whether the underlying call raises; the `try/except` blocks of
  the source are reflected in the fact that the embedded channel functions are
  total and merely record the failure;
* the SQLite tables are lists of typed rows; the UNIQUE constraint on
  `users.username` is reflected in the insert function failing, without
  writing, exactly when the username is already present.
-/

namespace VD

/-- One row of the `users` table (`CREATE TABLE users` in app.py). -/
structure User where
  name : String
  email : String
  phone : String
  gender : String
  username : String
  password : String
  role : String
  status : String
deriving DecidableEq, Repr

/-- One row of the `alerts` table (`CREATE TABLE alerts` in app.py);
the auto-increment id is the row's position in the list. -/
structure AlertRow where
  username : String
  alert_type : String
  time : String
  image_path : String
deriving DecidableEq, Repr

/-- The per-session mutable state used by the alert pipeline:
`st.session_state.username` and `st.session_state.last_alert_time`. -/
structure SessionState where
  username : String
  last_alert_time : Int
deriving DecidableEq, Repr

/-- `ALERT_COOLDOWN = 20` (app.py line 14). -/
def ALERT_COOLDOWN : Int := 20

/-- A single detection box as consumed by `detect_events`:
`box.conf[0]` and `box.cls[0]`. -/
structure Box where
  conf : Rat
  cls : Int
deriving DecidableEq, Repr

/-- The list `alerts` built by the two `for` loops of `detect_events`
(app.py lines 129-139) before the `list(set(...))` deduplication:
a general-model box appends "Person Detected" when its confidence is at
least `conf` and its class is 0; a fire-model box appends "Fire Detected"
when its confidence is at least `conf`. -/
def detect_events_raw (results fire_results : List Box) (conf : Rat) :
    List String :=
  (results.filterMap fun box =>
    if conf ≤ box.conf then
      if box.cls = 0 then some "Person Detected" else none
    else none)
  ++ (fire_results.filterMap fun box =>
    if conf ≤ box.conf then some "Fire Detected" else none)

/-- `detect_events` (app.py lines 128-141): builds the raw alert list and
returns `list(set(alerts))`, modelled as `List.dedup`. -/
def detect_events (results fire_results : List Box) (conf : Rat) :
    List String :=
  (detect_events_raw results fire_results conf).dedup

/-- `SELECT email FROM users WHERE username=?` followed by `fetchone()`:
the first matching row's email, if any. -/
def lookupEmail (users : List User) (u : String) : Option String :=
  (users.find? fun r => r.username = u).map (·.email)

/-- `SELECT phone FROM users WHERE username=?` followed by `fetchone()`. -/
def lookupPhone (users : List User) (u : String) : Option String :=
  (users.find? fun r => r.username = u).map (·.phone)

/-- Outcome of one `send_email` call. The whole body of `send_email` is
wrapped in `try/except Exception` (app.py lines 61-86), so the function
always returns normally; a raised network/SMTP error only results in the
`errorLogged` outcome. -/
inductive EmailOutcome
  /-- `fetchone()` found no user row: `return` before any network call. -/
  | skippedNoUser
  /-- Mail was submitted; `attached` records whether the snapshot file
  existed on disk and was attached. -/
  | sent (attached : Bool)
  /-- An exception was raised and caught: `print("Email error:", e)`. -/
  | errorLogged
deriving DecidableEq, Repr

/-- Outcome of one `send_sms` call (same `try/except` shape,
app.py lines 88-107). -/
inductive SmsOutcome
  | skippedNoUser
  | sent
  | errorLogged
deriving DecidableEq, Repr

/-- `send_email` (app.py lines 60-86): looks up the session user's email;
if none, returns; otherwise builds the MIME message, attaching the image
when `image_path` is set and the file exists on disk (`diskFiles`), and
submits over SMTP. `netFails` says whether the SMTP interaction raises;
the `except` clause turns that into a logged outcome rather than a
propagated exception. -/
def send_email (users : List User) (sessionUser : String)
    (image_path : Option String) (diskFiles : List String)
    (netFails : Bool) : EmailOutcome :=
  match lookupEmail users sessionUser with
  | none => .skippedNoUser
  | some _ =>
    if netFails then .errorLogged
    else
      .sent (match image_path with
              | some p => decide (p ∈ diskFiles)
              | none => false)

/-- `send_sms` (app.py lines 88-107): looks up the session user's phone;
if none, returns; otherwise POSTs to the SMS provider. `netFails` says
whether the HTTP call raises; the `except` clause catches it. -/
def send_sms (users : List User) (sessionUser : String)
    (netFails : Bool) : SmsOutcome :=
  match lookupPhone users sessionUser with
  | none => .skippedNoUser
  | some _ => if netFails then .errorLogged else .sent

/-- Observable effects of one `trigger_alert` call, in program order. -/
inductive Event
  /-- `cv2.imwrite(img, frame)`: the snapshot file written to disk. -/
  | snapshotSaved (path : String)
  /-- `INSERT INTO alerts ...` followed by `conn.commit()`. -/
  | rowInserted (row : AlertRow)
  /-- the `send_email(...)` call and its outcome. -/
  | emailAttempt (o : EmailOutcome)
  /-- the `send_sms(...)` call and its outcome. -/
  | smsAttempt (o : SmsOutcome)
deriving DecidableEq, Repr

/-- Result of one `trigger_alert` call: the new session state, the new
`alerts` table, and the trace of observable effects. -/
structure TriggerResult where
  session : SessionState
  alertsTable : List AlertRow
  events : List Event
deriving DecidableEq, Repr

/-- `trigger_alert(text, frame)` (app.py lines 109-125). `now` is the
`time.time()` reading (whole seconds) at the call; `fmt` models
`datetime.now().strftime("%Y-%m-%d %H:%M:%S")` as a function of that
instant; `emailFails` / `smsFails` drive the network failures inside the
two channel calls. If the cooldown suppresses the alert, the function
returns before any effect; otherwise it writes the snapshot
`alert_<unix-seconds>.jpg`, inserts and commits the alerts row, calls both
channels (each swallowing its own errors), and finally sets
`last_alert_time = now`. -/
def trigger_alert (users : List User) (fmt : Int → String)
    (emailFails smsFails : Bool) (st : SessionState)
    (table : List AlertRow) (text : String) (now : Int) : TriggerResult :=
  if now - st.last_alert_time < ALERT_COOLDOWN then
    ⟨st, table, []⟩
  else
    let ts := fmt now
    let img := "alert_" ++ toString now ++ ".jpg"
    let row : AlertRow := ⟨st.username, text, ts, img⟩
    let emailOut := send_email users st.username (some img) [img] emailFails
    let smsOut := send_sms users st.username smsFails
    ⟨{ st with last_alert_time := now }, table ++ [row],
     [.snapshotSaved img, .rowInserted row,
      .emailAttempt emailOut, .smsAttempt smsOut]⟩

/-- Result of handling one frame's event set inside `run_camera`. -/
structure FrameOutcome where
  session : SessionState
  alertsTable : List AlertRow
  events : List Event
  /-- the composite text shown by `alert_box.error(text)` and passed to
  `trigger_alert`, when the event set is non-empty. -/
  message : Option String
deriving DecidableEq, Repr

/-- The alert branch of the `run_camera` frame loop (app.py lines
162-167): `if alerts: text = " | ".join(alerts); alert_box.error(text);
trigger_alert(text, frame)` else a success banner and no call to
`trigger_alert` at all. -/
def processFrame (users : List User) (fmt : Int → String)
    (emailFails smsFails : Bool) (st : SessionState)
    (table : List AlertRow) (alerts : List String) (now : Int) :
    FrameOutcome :=
  if alerts.isEmpty then
    ⟨st, table, [], none⟩
  else
    let text := String.intercalate " | " alerts
    let r := trigger_alert users fmt emailFails smsFails st table text now
    ⟨r.session, r.alertsTable, r.events, some text⟩

/-- What one iteration of the `while cap.isOpened()` loop encounters. -/
inductive FrameStep
  /-- `ret, frame = cap.read()` returned `ret == False`: `break`. -/
  | readFail
  /-- `model(frame, ...)` or `fire_model(frame, ...)` raised: the
  exception propagates out of `run_camera` (no handler in the loop). -/
  | inferError
  /-- a frame read and analysed successfully: the two models' boxes and
  the `time.time()` instant at which `trigger_alert` would run. -/
  | frame (results fire_results : List Box) (now : Int)
deriving DecidableEq, Repr

/-- Final observable state of one `run_camera` call. -/
structure CamResult where
  session : SessionState
  alertsTable : List AlertRow
  events : List Event
  /-- whether `cap.release()` (app.py line 169) was executed. -/
  released : Bool
  /-- whether an exception propagated out of `run_camera`. -/
  raised : Bool
deriving DecidableEq, Repr

/-- The `run_camera` loop body (app.py lines 144-169) over a schedule of
frame steps. The list ending models `cap.isOpened()` becoming false; a
`readFail` step models `if not ret: break`. In both of those cases control
falls through to `cap.release()`. An `inferError` step aborts the call by
exception: `cap.release()` sits after the loop with no `try/finally`, so
it is skipped on that path. -/
def run_camera_loop (users : List User) (fmt : Int → String)
    (emailFails smsFails : Bool) (conf : Rat) :
    SessionState → List AlertRow → List FrameStep → CamResult
  | st, table, [] => ⟨st, table, [], true, false⟩
  | st, table, step :: rest =>
    match step with
    | .readFail => ⟨st, table, [], true, false⟩
    | .inferError => ⟨st, table, [], false, true⟩
    | .frame results fire_results now =>
      let alerts := detect_events results fire_results conf
      let fo := processFrame users fmt emailFails smsFails st table
        alerts now
      let r := run_camera_loop users fmt emailFails smsFails conf
        fo.session fo.alertsTable rest
      ⟨r.session, r.alertsTable, fo.events ++ r.events, r.released,
       r.raised⟩

/-- `run_camera(src, conf)` (app.py lines 144-169): acquires the capture
handle, runs the loop, and releases the handle only when the loop exits
normally. -/
def run_camera (users : List User) (fmt : Int → String)
    (emailFails smsFails : Bool) (conf : Rat) (st : SessionState)
    (table : List AlertRow) (steps : List FrameStep) : CamResult :=
  run_camera_loop users fmt emailFails smsFails conf st table steps

/-- `hashlib.sha256(p.encode()).hexdigest()` is kept abstract: the
registration logic never inspects the digest, so the embedding passes the
hash function as a parameter `hashp`. -/
def registrationRow (hashp : String → String)
    (name email phone gender username password : String) : User :=
  ⟨name, email, phone, gender, username, hashp password, "user", "active"⟩

/-- The message shown by the `Submit` branch of `register_page`. -/
inductive RegMsg
  | success
  | usernameExists
deriving DecidableEq, Repr

/-- The `Submit` handler of `register_page` (app.py lines 201-210):
`INSERT INTO users ...` raises `IntegrityError` exactly when the UNIQUE
constraint on `username` is violated, in which case SQLite writes
nothing; the bare `except:` turns that into the "Username already exists"
error message. On success the row is committed and "Registered
Successfully" shown. -/
def register_page (hashp : String → String) (users : List User)
    (name email phone gender username password : String) :
    List User × RegMsg :=
  if users.any fun r => r.username = username then
    (users, .usernameExists)
  else
    (users ++ [registrationRow hashp name email phone gender username
      password], .success)

theorem mem_detect_events_raw (results fire_results : List Box) (conf : Rat)
    (lab : String) :
    lab ∈ detect_events_raw results fire_results conf ↔
      (lab = "Person Detected" ∧
        ∃ b ∈ results, conf ≤ b.conf ∧ b.cls = 0) ∨
      (lab = "Fire Detected" ∧ ∃ b ∈ fire_results, conf ≤ b.conf) := by
  simp only [detect_events_raw, List.mem_append, List.mem_filterMap]
  constructor
  · rintro (⟨b, hb, hsome⟩ | ⟨b, hb, hsome⟩)
    · by_cases hc : conf ≤ b.conf
      · by_cases hcls : b.cls = 0
        · simp [hc, hcls] at hsome
          exact Or.inl ⟨hsome.symm, b, hb, hc, hcls⟩
        · simp [hc, hcls] at hsome
      · simp [hc] at hsome
    · by_cases hc : conf ≤ b.conf
      · simp [hc] at hsome
        exact Or.inr ⟨hsome.symm, b, hb, hc⟩
      · simp [hc] at hsome
  · rintro (⟨rfl, b, hb, hc, hcls⟩ | ⟨rfl, b, hb, hc⟩)
    · exact Or.inl ⟨b, hb, by simp [hc, hcls]⟩
    · exact Or.inr ⟨b, hb, by simp [hc]⟩

theorem mem_detect_events (results fire_results : List Box) (conf : Rat)
    (lab : String) :
    lab ∈ detect_events results fire_results conf ↔
      lab ∈ detect_events_raw results fire_results conf := by
  simp [detect_events, List.mem_dedup]

theorem detect_events_labels (results fire_results : List Box) (conf : Rat)
    (lab : String) (h : lab ∈ detect_events results fire_results conf) :
    lab = "Person Detected" ∨ lab = "Fire Detected" := by
  rw [mem_detect_events, mem_detect_events_raw] at h
  rcases h with ⟨h, -⟩ | ⟨h, -⟩
  · exact Or.inl h
  · exact Or.inr h

theorem detect_events_nodup (results fire_results : List Box) (conf : Rat) :
    (detect_events results fire_results conf).Nodup :=
  List.nodup_dedup _

/-- The early-return branch of `trigger_alert`: within the cooldown the
function returns before any effect. -/
theorem trigger_alert_suppressed (users : List User) (fmt : Int → String)
    (ef sf : Bool) (st : SessionState) (table : List AlertRow)
    (text : String) (now : Int)
    (h : now - st.last_alert_time < ALERT_COOLDOWN) :
    trigger_alert users fmt ef sf st table text now = ⟨st, table, []⟩ := by
  simp [trigger_alert, h]

/-- The admitted branch of `trigger_alert`, spelled out. -/
theorem trigger_alert_admitted (users : List User) (fmt : Int → String)
    (ef sf : Bool) (st : SessionState) (table : List AlertRow)
    (text : String) (now : Int)
    (h : ALERT_COOLDOWN ≤ now - st.last_alert_time) :
    trigger_alert users fmt ef sf st table text now =
      ⟨{ st with last_alert_time := now },
       table ++ [⟨st.username, text, fmt now,
                  "alert_" ++ toString now ++ ".jpg"⟩],
       [.snapshotSaved ("alert_" ++ toString now ++ ".jpg"),
        .rowInserted ⟨st.username, text, fmt now,
                      "alert_" ++ toString now ++ ".jpg"⟩,
        .emailAttempt (send_email users st.username
          (some ("alert_" ++ toString now ++ ".jpg"))
          ["alert_" ++ toString now ++ ".jpg"] ef),
        .smsAttempt (send_sms users st.username sf)]⟩ := by
  have hn : ¬ now - st.last_alert_time < ALERT_COOLDOWN := not_lt.mpr h
  simp [trigger_alert, hn]

theorem processFrame_empty (users : List User) (fmt : Int → String)
    (ef sf : Bool) (st : SessionState) (table : List AlertRow) (now : Int) :
    processFrame users fmt ef sf st table [] now = ⟨st, table, [], none⟩ :=
  rfl

theorem processFrame_nonempty (users : List User) (fmt : Int → String)
    (ef sf : Bool) (st : SessionState) (table : List AlertRow)
    (alerts : List String) (now : Int) (h : alerts ≠ []) :
    processFrame users fmt ef sf st table alerts now =
      (let text := String.intercalate " | " alerts
       let r := trigger_alert users fmt ef sf st table text now
       ⟨r.session, r.alertsTable, r.events, some text⟩) := by
  cases alerts with
  | nil => exact absurd rfl h
  | cons a l => rfl

/-- C10: when the cooldown suppresses an admission attempt
(`now - lastAdmittedTime < 20`), `trigger_alert` performs no observable
effect: no snapshot file is written, no alerts row is inserted, no email
or SMS is attempted, and `last_alert_time` is unchanged. -/
theorem suppressed_alert_no_effect (users : List User) (fmt : Int → String)
    (ef sf : Bool) (st : SessionState) (table : List AlertRow)
    (text : String) (now : Int)
    (h : now - st.last_alert_time < ALERT_COOLDOWN) :
    (trigger_alert users fmt ef sf st table text now).session = st ∧
    (trigger_alert users fmt ef sf st table text now).alertsTable = table ∧
    (∀ p, Event.snapshotSaved p ∉
      (trigger_alert users fmt ef sf st table text now).events) ∧
    (∀ row, Event.rowInserted row ∉
      (trigger_alert users fmt ef sf st table text now).events) ∧
    (∀ o, Event.emailAttempt o ∉
      (trigger_alert users fmt ef sf st table text now).events) ∧
    (∀ o, Event.smsAttempt o ∉
      (trigger_alert users fmt ef sf st table text now).events) := by
  rw [trigger_alert_suppressed users fmt ef sf st table text now h]
  simp

/-- Witness for `suppressed_alert_no_effect` at a concrete suppressed
attempt (last admission at 0, retry at 5). -/
theorem suppressed_alert_no_effect_witness :
    (trigger_alert [] (fun _ => "") true true ⟨"u", 0⟩ [] "Fire Detected"
      5).session = (⟨"u", 0⟩ : SessionState) ∧
    (trigger_alert [] (fun _ => "") true true ⟨"u", 0⟩ [] "Fire Detected"
      5).alertsTable = [] :=
  ⟨(suppressed_alert_no_effect [] (fun _ => "") true true ⟨"u", 0⟩ []
      "Fire Detected" 5 (by decide)).1,
   (suppressed_alert_no_effect [] (fun _ => "") true true ⟨"u", 0⟩ []
      "Fire Detected" 5 (by decide)).2.1⟩

/-- C3: for every admitted alert, whatever the failure state of the two
network channels (`ef`, `sf` range over all four combinations), the email
channel and the SMS channel are both attempted, the alerts row is still
created, and the gate state is still updated to `now` — a failure raised
inside either channel is caught inside that channel and neither blocks
the other channel nor rolls anything back. -/
theorem notification_failures_isolated (users : List User)
    (fmt : Int → String) (ef sf : Bool) (st : SessionState)
    (table : List AlertRow) (text : String) (now : Int)
    (h : ALERT_COOLDOWN ≤ now - st.last_alert_time) :
    (∃ o, Event.smsAttempt o ∈
      (trigger_alert users fmt ef sf st table text now).events) ∧
    (∃ o, Event.emailAttempt o ∈
      (trigger_alert users fmt ef sf st table text now).events) ∧
    (∃ row, Event.rowInserted row ∈
        (trigger_alert users fmt ef sf st table text now).events ∧
      (trigger_alert users fmt ef sf st table text now).alertsTable =
        table ++ [row]) ∧
    SessionState.last_alert_time
      (trigger_alert users fmt ef sf st table text now).session = now := by
  rw [trigger_alert_admitted users fmt ef sf st table text now h]
  refine ⟨⟨send_sms users st.username sf, by simp⟩,
    ⟨send_email users st.username
      (some ("alert_" ++ toString now ++ ".jpg"))
      ["alert_" ++ toString now ++ ".jpg"] ef, by simp⟩,
    ⟨⟨st.username, text, fmt now, "alert_" ++ toString now ++ ".jpg"⟩,
      by simp, by simp⟩, rfl⟩

/-- Witness for `notification_failures_isolated` with both channels
failing (`ef = sf = true`): the SMS attempt, the email attempt, the
inserted row and the gate update all still happen. -/
theorem notification_failures_isolated_witness :
    (∃ o, Event.smsAttempt o ∈
      (trigger_alert [⟨"n", "e", "p", "g", "u", "pw", "user", "active"⟩]
        (fun _ => "ts") true true ⟨"u", 0⟩ [] "Fire Detected" 100).events) ∧
    (∃ o, Event.emailAttempt o ∈
      (trigger_alert [⟨"n", "e", "p", "g", "u", "pw", "user", "active"⟩]
        (fun _ => "ts") true true ⟨"u", 0⟩ [] "Fire Detected" 100).events) ∧
    (∃ row, Event.rowInserted row ∈
        (trigger_alert [⟨"n", "e", "p", "g", "u", "pw", "user", "active"⟩]
          (fun _ => "ts") true true ⟨"u", 0⟩ [] "Fire Detected"
          100).events ∧
      (trigger_alert [⟨"n", "e", "p", "g", "u", "pw", "user", "active"⟩]
        (fun _ => "ts") true true ⟨"u", 0⟩ [] "Fire Detected"
        100).alertsTable = [] ++ [row]) ∧
    SessionState.last_alert_time
      (trigger_alert [⟨"n", "e", "p", "g", "u", "pw", "user", "active"⟩]
        (fun _ => "ts") true true ⟨"u", 0⟩ [] "Fire Detected"
        100).session = 100 :=
  notification_failures_isolated
    [⟨"n", "e", "p", "g", "u", "pw", "user", "active"⟩] (fun _ => "ts")
    true true ⟨"u", 0⟩ [] "Fire Detected" 100 (by decide)

/-- C9: for every admitted alert at time `now`, the snapshot is written
under the name `alert_<unix-seconds>.jpg` built from the admission time,
and the alerts row appended for that alert stores exactly that path in
its `image_path` field (and carries the composite text and the session
username). -/
theorem snapshot_path_invariant (users : List User) (fmt : Int → String)
    (ef sf : Bool) (st : SessionState) (table : List AlertRow)
    (text : String) (now : Int)
    (h : ALERT_COOLDOWN ≤ now - st.last_alert_time) :
    Event.snapshotSaved ("alert_" ++ toString now ++ ".jpg") ∈
      (trigger_alert users fmt ef sf st table text now).events ∧
    (∀ row, Event.rowInserted row ∈
        (trigger_alert users fmt ef sf st table text now).events →
      row.image_path = "alert_" ++ toString now ++ ".jpg") ∧
    (∃ row, Event.rowInserted row ∈
        (trigger_alert users fmt ef sf st table text now).events ∧
      row.image_path = "alert_" ++ toString now ++ ".jpg" ∧
      row.alert_type = text ∧ row.username = st.username) := by
  rw [trigger_alert_admitted users fmt ef sf st table text now h]
  refine ⟨by simp, ?_, ?_⟩
  · intro row hrow
    simp only [List.mem_cons, List.not_mem_nil, or_false] at hrow
    rcases hrow with h1 | h1 | h1 | h1 <;> simp_all
  · exact ⟨⟨st.username, text, fmt now,
      "alert_" ++ toString now ++ ".jpg"⟩, by simp, rfl, rfl, rfl⟩

/-- Witness for `snapshot_path_invariant` at admission time 123: the
snapshot event is `alert_123.jpg` and the inserted row references it. -/
theorem snapshot_path_invariant_witness :
    Event.snapshotSaved ("alert_" ++ toString (123 : Int) ++ ".jpg") ∈
      (trigger_alert [] (fun _ => "ts") false false ⟨"u", 0⟩ []
        "Person Detected" 123).events ∧
    (∀ row, Event.rowInserted row ∈
        (trigger_alert [] (fun _ => "ts") false false ⟨"u", 0⟩ []
          "Person Detected" 123).events →
      row.image_path = "alert_" ++ toString (123 : Int) ++ ".jpg") ∧
    (∃ row, Event.rowInserted row ∈
        (trigger_alert [] (fun _ => "ts") false false ⟨"u", 0⟩ []
          "Person Detected" 123).events ∧
      row.image_path = "alert_" ++ toString (123 : Int) ++ ".jpg" ∧
      row.alert_type = "Person Detected" ∧ row.username = "u") :=
  snapshot_path_invariant [] (fun _ => "ts") false false ⟨"u", 0⟩ []
    "Person Detected" 123 (by decide)

theorem processFrame_events_ne_iff (users : List User) (fmt : Int → String)
    (ef sf : Bool) (st : SessionState) (table : List AlertRow)
    (alerts : List String) (now : Int) (hne : alerts ≠ []) :
    (processFrame users fmt ef sf st table alerts now).events ≠ [] ↔
      ALERT_COOLDOWN ≤ now - st.last_alert_time := by
  by_cases h : ALERT_COOLDOWN ≤ now - st.last_alert_time
  · simp [processFrame_nonempty users fmt ef sf st table alerts now hne,
      trigger_alert_admitted users fmt ef sf st table
        (String.intercalate " | " alerts) now h, h]
  · have hlt : now - st.last_alert_time < ALERT_COOLDOWN := not_le.mp h
    simp [processFrame_nonempty users fmt ef sf st table alerts now hne,
      trigger_alert_suppressed users fmt ef sf st table
        (String.intercalate " | " alerts) now hlt, h]

theorem processFrame_admitted_session (users : List User)
    (fmt : Int → String) (ef sf : Bool) (st : SessionState)
    (table : List AlertRow) (alerts : List String) (now : Int)
    (hne : alerts ≠ []) (h : ALERT_COOLDOWN ≤ now - st.last_alert_time) :
    (processFrame users fmt ef sf st table alerts now).session =
      { st with last_alert_time := now } := by
  simp [processFrame_nonempty users fmt ef sf st table alerts now hne,
    trigger_alert_admitted users fmt ef sf st table
      (String.intercalate " | " alerts) now h]

theorem processFrame_suppressed (users : List User) (fmt : Int → String)
    (ef sf : Bool) (st : SessionState) (table : List AlertRow)
    (alerts : List String) (now : Int) (hne : alerts ≠ [])
    (h : now - st.last_alert_time < ALERT_COOLDOWN) :
    processFrame users fmt ef sf st table alerts now =
      ⟨st, table, [], some (String.intercalate " | " alerts)⟩ := by
  rw [processFrame_nonempty users fmt ef sf st table alerts now hne]
  simp [trigger_alert_suppressed users fmt ef sf st table
    (String.intercalate " | " alerts) now h]

/-- C1: for a non-empty candidate event set, the alert gate admits at
time `now` if and only if `now - lastAdmittedTime >= 20` seconds
(`ALERT_COOLDOWN`), and on admission it sets `lastAdmittedTime` to `now`;
consequently, of two admission attempts at `t0` and `t1` with
`t1 - t0 < 20` only the first succeeds, and a third attempt at `t0 + 21`
succeeds again. -/
theorem alert_gate_cooldown (users : List User) (fmt : Int → String)
    (ef sf : Bool) (st : SessionState) (table : List AlertRow)
    (alerts : List String) (t0 t1 : Int) (hne : alerts ≠ [])
    (h0 : ALERT_COOLDOWN ≤ t0 - st.last_alert_time)
    (h01 : t1 - t0 < ALERT_COOLDOWN) :
    (∀ now, (processFrame users fmt ef sf st table alerts now).events ≠ []
      ↔ ALERT_COOLDOWN ≤ now - st.last_alert_time) ∧
    (∀ now, ALERT_COOLDOWN ≤ now - st.last_alert_time →
      SessionState.last_alert_time
        (processFrame users fmt ef sf st table alerts now).session = now) ∧
    (let r0 := processFrame users fmt ef sf st table alerts t0
     let r1 := processFrame users fmt ef sf r0.session r0.alertsTable
       alerts t1
     let r2 := processFrame users fmt ef sf r1.session r1.alertsTable
       alerts (t0 + 21)
     r0.events ≠ [] ∧ r1.events = [] ∧ r2.events ≠ []) := by
  have e0 := processFrame_admitted_session users fmt ef sf st table alerts
    t0 hne h0
  refine ⟨fun now =>
      processFrame_events_ne_iff users fmt ef sf st table alerts now hne,
    fun now h => by
      rw [processFrame_admitted_session users fmt ef sf st table alerts
        now hne h],
    ?_, ?_, ?_⟩
  · exact (processFrame_events_ne_iff users fmt ef sf st table alerts t0
      hne).mpr h0
  · have hlt : t1 - SessionState.last_alert_time
        (processFrame users fmt ef sf st table alerts t0).session <
        ALERT_COOLDOWN := by
      rw [e0]
      simpa using h01
    rw [processFrame_suppressed users fmt ef sf _ _ alerts t1 hne hlt]
  · have hlt : t1 - SessionState.last_alert_time
        (processFrame users fmt ef sf st table alerts t0).session <
        ALERT_COOLDOWN := by
      rw [e0]
      simpa using h01
    rw [processFrame_suppressed users fmt ef sf _ _ alerts t1 hne hlt]
    refine (processFrame_events_ne_iff users fmt ef sf _ _ alerts
      (t0 + 21) hne).mpr ?_
    rw [e0]
    simp only [ALERT_COOLDOWN]
    omega

/-- Witness for `alert_gate_cooldown`: last admission at 0, then the
scenario `t0 = 100`, `t1 = 110`, `t0 + 21 = 121` with one candidate
event. -/
theorem alert_gate_cooldown_witness :
    (let r0 := processFrame [] (fun _ => "ts") false false ⟨"u", 0⟩ []
       ["Fire Detected"] 100
     let r1 := processFrame [] (fun _ => "ts") false false r0.session
       r0.alertsTable ["Fire Detected"] 110
     let r2 := processFrame [] (fun _ => "ts") false false r1.session
       r1.alertsTable ["Fire Detected"] (100 + 21)
     r0.events ≠ [] ∧ r1.events = [] ∧ r2.events ≠ []) :=
  (alert_gate_cooldown [] (fun _ => "ts") false false ⟨"u", 0⟩ []
    ["Fire Detected"] 100 110 (by decide) (by decide) (by decide)).2.2

/-- C4: for every frame whose deduplicated event set (the output of
`detect_events`) is empty, no alert is produced regardless of timing: the
gate is not invoked, the session state and alerts table are unchanged, no
effect event occurs, and no composite message is shown. -/
theorem empty_events_no_alert (users : List User) (fmt : Int → String)
    (ef sf : Bool) (st : SessionState) (table : List AlertRow)
    (results fire_results : List Box) (conf : Rat) (now : Int)
    (h : detect_events results fire_results conf = []) :
    processFrame users fmt ef sf st table
      (detect_events results fire_results conf) now =
      ⟨st, table, [], none⟩ := by
  rw [h]
  rfl

/-- Witness for `empty_events_no_alert`: one below-threshold person box
and one below-threshold fire box (confidence 0) at threshold 1, long
after the last admitted alert. -/
theorem empty_events_no_alert_witness :
    processFrame [] (fun _ => "ts") false false ⟨"u", 0⟩ []
      (detect_events [⟨0, 0⟩] [⟨0, 2⟩] 1) 1000 =
      ⟨⟨"u", 0⟩, [], [], none⟩ :=
  empty_events_no_alert [] (fun _ => "ts") false false ⟨"u", 0⟩ []
    [⟨0, 0⟩] [⟨0, 2⟩] 1 1000 (by decide)

/-- C2: for every frame and threshold `t`, the detection adapter
contributes "Person Detected" exactly for general-model boxes with
confidence at least `t` whose class identifier is the person class (0),
and "Fire Detected" exactly for fire-model boxes with confidence at least
`t` regardless of class; every box with confidence below `t` contributes
nothing, and no other label ever appears. -/
theorem detect_events_threshold (results fire_results : List Box)
    (t : Rat) :
    ("Person Detected" ∈ detect_events results fire_results t ↔
      ∃ b ∈ results, t ≤ b.conf ∧ b.cls = 0) ∧
    ("Fire Detected" ∈ detect_events results fire_results t ↔
      ∃ b ∈ fire_results, t ≤ b.conf) ∧
    (∀ lab ∈ detect_events results fire_results t,
      lab = "Person Detected" ∨ lab = "Fire Detected") := by
  have hPF : ("Person Detected" : String) ≠ "Fire Detected" := by decide
  refine ⟨?_, ?_,
    fun lab h => detect_events_labels results fire_results t lab h⟩
  · rw [mem_detect_events, mem_detect_events_raw]
    simp [hPF]
  · rw [mem_detect_events, mem_detect_events_raw]
    simp [hPF.symm]

/-- Witness for `detect_events_threshold`: a class-0 box at confidence 1
clears threshold 1 and yields "Person Detected"; a fire box at
confidence 0 stays below threshold 1 and yields nothing. -/
theorem detect_events_threshold_witness :
    "Person Detected" ∈ detect_events [⟨1, 0⟩] [⟨0, 2⟩] 1 ∧
    ¬ "Fire Detected" ∈ detect_events [⟨1, 0⟩] [⟨0, 2⟩] 1 :=
  ⟨(detect_events_threshold [⟨1, 0⟩] [⟨0, 2⟩] 1).1.mpr
      ⟨⟨1, 0⟩, by simp, by decide, rfl⟩,
   fun h => by
    have := (detect_events_threshold [⟨1, 0⟩] [⟨0, 2⟩] 1).2.1.mp h
    simp at this
    exact absurd this (by decide)⟩

/-- C8: the event set returned by the detection adapter is deduplicated:
it has no duplicate entries, and each label occurs in it exactly once
when any number of boxes produced that label in the raw per-box list, and
zero times otherwise. -/
theorem detect_events_deduplicated (results fire_results : List Box)
    (t : Rat) :
    (detect_events results fire_results t).Nodup ∧
    ∀ lab, (detect_events results fire_results t).count lab =
      if lab ∈ detect_events_raw results fire_results t then 1 else 0 :=
  ⟨detect_events_nodup results fire_results t,
   fun _ => List.count_dedup _ _⟩

/-- Witness for `detect_events_deduplicated`: two boxes both yielding
"Person Detected" produce exactly one entry. -/
theorem detect_events_deduplicated_witness :
    (detect_events [⟨1, 0⟩, ⟨1, 0⟩] [] 1).Nodup ∧
    (detect_events [⟨1, 0⟩, ⟨1, 0⟩] [] 1).count "Person Detected" = 1 :=
  ⟨(detect_events_deduplicated [⟨1, 0⟩, ⟨1, 0⟩] [] 1).1,
   by
    rw [(detect_events_deduplicated [⟨1, 0⟩, ⟨1, 0⟩] [] 1).2
      "Person Detected"]
    decide⟩

/-- C7: registering the same username twice yields success for the first
attempt and the "Username already exists" rejection for the second, with
no partial write: the second attempt leaves the users table unchanged,
and after both attempts the table contains exactly one row with that
username. -/
theorem register_twice_conflict (hashp : String → String)
    (users : List User)
    (name email phone gender username password
     name2 email2 phone2 gender2 password2 : String)
    (hfresh : ∀ r ∈ users, r.username ≠ username) :
    (register_page hashp users name email phone gender username
      password).2 = RegMsg.success ∧
    (register_page hashp
      (register_page hashp users name email phone gender username
        password).1
      name2 email2 phone2 gender2 username password2).2 =
      RegMsg.usernameExists ∧
    (register_page hashp
      (register_page hashp users name email phone gender username
        password).1
      name2 email2 phone2 gender2 username password2).1 =
      (register_page hashp users name email phone gender username
        password).1 ∧
    ((register_page hashp
      (register_page hashp users name email phone gender username
        password).1
      name2 email2 phone2 gender2 username password2).1.countP
      fun r => r.username = username) = 1 := by
  have hany : (users.any fun r => r.username = username) = false := by
    rw [List.any_eq_false]
    intro r hr
    simpa using hfresh r hr
  have hany2 : ((users ++ [registrationRow hashp name email phone gender
      username password]).any fun r => r.username = username) = true := by
    rw [List.any_eq_true]
    exact ⟨registrationRow hashp name email phone gender username
      password, by simp, by simp [registrationRow]⟩
  have e1 : register_page hashp users name email phone gender username
      password =
      (users ++ [registrationRow hashp name email phone gender username
        password], RegMsg.success) := by
    simp [register_page, hany]
  have e2 : register_page hashp (users ++ [registrationRow hashp name
      email phone gender username password]) name2 email2 phone2 gender2
      username password2 =
      (users ++ [registrationRow hashp name email phone gender username
        password], RegMsg.usernameExists) := by
    simp [register_page, hany2]
  have h0 : (users.countP fun r => decide (r.username = username)) = 0 :=
    by
    rw [List.countP_eq_zero]
    intro r hr
    simpa using hfresh r hr
  rw [e1]
  simp only [e2]
  refine ⟨trivial, trivial, trivial, ?_⟩
  rw [List.countP_append, h0]
  simp [registrationRow]

/-- Witness for `register_twice_conflict`: registering "alice" twice
into an empty users table leaves exactly one "alice" row. -/
theorem register_twice_conflict_witness :
    ((register_page (fun s => s)
      (register_page (fun s => s) [] "A" "e" "p" "g" "alice" "pw").1
      "B" "e2" "p2" "g2" "alice" "pw2").1.countP
      fun r => r.username = "alice") = 1 :=
  (register_twice_conflict (fun s => s) [] "A" "e" "p" "g" "alice" "pw"
    "B" "e2" "p2" "g2" "pw2" (by simp)).2.2.2

/-- A duplicate-free list over a two-element label universe is one of
five lists. -/
theorem nodup_two_labels (a b : String) (hab : a ≠ b) (l : List String)
    (hmem : ∀ x ∈ l, x = a ∨ x = b) (hnd : l.Nodup) :
    l = [] ∨ l = [a] ∨ l = [b] ∨ l = [a, b] ∨ l = [b, a] := by
  rcases l with - | ⟨x, - | ⟨y, - | ⟨z, rest⟩⟩⟩
  · simp
  · rcases hmem x (by simp) with rfl | rfl <;> simp
  · have hx := hmem x (by simp)
    have hy := hmem y (by simp)
    simp only [List.nodup_cons, List.mem_singleton, List.not_mem_nil,
      not_false_iff, List.nodup_nil, and_true] at hnd
    rcases hx with rfl | rfl <;> rcases hy with rfl | rfl <;> simp_all
  · exfalso
    have hx := hmem x (by simp)
    have hy := hmem y (by simp)
    have hz := hmem z (by simp)
    simp only [List.nodup_cons, List.mem_cons] at hnd
    rcases hx with rfl | rfl <;> rcases hy with rfl | rfl <;>
      rcases hz with rfl | rfl <;> simp_all

/-- Over the two labels the adapter can produce, a label occurs as a
substring of the " | "-joined message exactly when it is a member of the
(duplicate-free) label list. -/
theorem joined_label_mem (l : List String)
    (hmem : ∀ x ∈ l, x = "Person Detected" ∨ x = "Fire Detected")
    (hnd : l.Nodup) :
    ∀ lab, lab = "Person Detected" ∨ lab = "Fire Detected" →
      (lab.data <:+: (String.intercalate " | " l).data ↔ lab ∈ l) := by
  rcases nodup_two_labels "Person Detected" "Fire Detected" (by decide) l
      hmem hnd with rfl | rfl | rfl | rfl | rfl <;>
    rintro lab (rfl | rfl) <;> decide

/-- When both labels are present in a duplicate-free label list, the
joined message is one of the two orderings, each containing both labels
separated by " | ". -/
theorem joined_pair_message (l : List String)
    (hmem : ∀ x ∈ l, x = "Person Detected" ∨ x = "Fire Detected")
    (hnd : l.Nodup) (hp : "Person Detected" ∈ l)
    (hf : "Fire Detected" ∈ l) :
    String.intercalate " | " l = "Person Detected | Fire Detected" ∨
    String.intercalate " | " l = "Fire Detected | Person Detected" := by
  rcases nodup_two_labels "Person Detected" "Fire Detected" (by decide) l
      hmem hnd with rfl | rfl | rfl | rfl | rfl
  · exact absurd hp (by decide)
  · exact absurd hf (by decide)
  · exact absurd hp (by decide)
  · exact Or.inl (by decide)
  · exact Or.inr (by decide)

/-- C5: the composite alert message is the event labels joined with
separator " | ", and its content is order-independent: a label occurs in
the message exactly when it is in the event set, so two detection
outcomes equal as sets yield messages containing exactly the same
labels; when both "Person Detected" and "Fire Detected" are present the
message is one of the two " | "-separated orderings of the pair. -/
theorem composite_message_order_independent
    (results fire_results results2 fire_results2 : List Box)
    (t t2 : Rat) :
    (∀ lab, lab = "Person Detected" ∨ lab = "Fire Detected" →
      (lab.data <:+:
        (String.intercalate " | "
          (detect_events results fire_results t)).data ↔
       lab ∈ detect_events results fire_results t)) ∧
    ((∀ x, x ∈ detect_events results fire_results t ↔
        x ∈ detect_events results2 fire_results2 t2) →
      ∀ lab, lab = "Person Detected" ∨ lab = "Fire Detected" →
        (lab.data <:+:
          (String.intercalate " | "
            (detect_events results fire_results t)).data ↔
         lab.data <:+:
          (String.intercalate " | "
            (detect_events results2 fire_results2 t2)).data)) ∧
    ("Person Detected" ∈ detect_events results fire_results t →
      "Fire Detected" ∈ detect_events results fire_results t →
      String.intercalate " | " (detect_events results fire_results t) =
        "Person Detected | Fire Detected" ∨
      String.intercalate " | " (detect_events results fire_results t) =
        "Fire Detected | Person Detected") := by
  have h1 := joined_label_mem (detect_events results fire_results t)
    (fun x hx => detect_events_labels results fire_results t x hx)
    (detect_events_nodup results fire_results t)
  have h2 := joined_label_mem (detect_events results2 fire_results2 t2)
    (fun x hx => detect_events_labels results2 fire_results2 t2 x hx)
    (detect_events_nodup results2 fire_results2 t2)
  refine ⟨h1, fun hiff lab hlab => ?_,
    fun hp hf => joined_pair_message (detect_events results fire_results
        t)
      (fun x hx => detect_events_labels results fire_results t x hx)
      (detect_events_nodup results fire_results t) hp hf⟩
  exact ((h1 lab hlab).trans (hiff lab)).trans (h2 lab hlab).symm

/-- Witness for `composite_message_order_independent`: two different
frames whose event sets are both {"Person Detected", "Fire Detected"}
give messages with the same labels, and the pair message is one of the
two " | "-separated orderings. -/
theorem composite_message_order_independent_witness :
    ("Person Detected".data <:+:
      (String.intercalate " | "
        (detect_events [⟨1, 0⟩] [⟨1, 2⟩] 1)).data ↔
     "Person Detected".data <:+:
      (String.intercalate " | "
        (detect_events [⟨2, 0⟩] [⟨3, 1⟩] 1)).data) ∧
    (String.intercalate " | " (detect_events [⟨1, 0⟩] [⟨1, 2⟩] 1) =
      "Person Detected | Fire Detected" ∨
     String.intercalate " | " (detect_events [⟨1, 0⟩] [⟨1, 2⟩] 1) =
      "Fire Detected | Person Detected") :=
  ⟨(composite_message_order_independent [⟨1, 0⟩] [⟨1, 2⟩] [⟨2, 0⟩]
      [⟨3, 1⟩] 1 1).2.1 (fun _ => Iff.rfl) "Person Detected"
      (Or.inl rfl),
   (composite_message_order_independent [⟨1, 0⟩] [⟨1, 2⟩] [⟨2, 0⟩]
      [⟨3, 1⟩] 1 1).2.2 (by decide) (by decide)⟩

/-- C6 counterexample: a run whose first frame read succeeds but whose
model-inference call raises terminates `run_camera` by exception, and
`cap.release()` — placed after the loop with no `try/finally` — is not
executed: the claim that the handle is released on every exit path fails
on this input. -/
theorem run_camera_release_skipped_on_error :
    (run_camera [] (fun _ => "ts") false false 1 ⟨"u", 0⟩ []
      [FrameStep.inferError]).released = false := rfl

/-- C6 amended: the frame loop releases the capture handle exactly on
the exit paths on which no exception propagates (source exhaustion or a
failed read); in particular, a run whose schedule never hits a
model-inference error does release the handle. -/
theorem run_camera_release_characterization (users : List User)
    (fmt : Int → String) (ef sf : Bool) (conf : Rat)
    (st : SessionState) (table : List AlertRow)
    (steps : List FrameStep) :
    ((run_camera users fmt ef sf conf st table steps).released =
      !(run_camera users fmt ef sf conf st table steps).raised) ∧
    (FrameStep.inferError ∉ steps →
      (run_camera users fmt ef sf conf st table steps).released =
        true) := by
  induction steps generalizing st table with
  | nil => exact ⟨rfl, fun _ => rfl⟩
  | cons s rest ih =>
    cases s with
    | readFail => exact ⟨rfl, fun _ => rfl⟩
    | inferError =>
      exact ⟨rfl, fun h => absurd (List.mem_cons_self _ _) h⟩
    | frame results fire_results now =>
      have hih := ih
        (processFrame users fmt ef sf st table
          (detect_events results fire_results conf) now).session
        (processFrame users fmt ef sf st table
          (detect_events results fire_results conf) now).alertsTable
      refine ⟨?_, fun h => ?_⟩
      · simpa [run_camera, run_camera_loop] using hih.1
      · have hrest : FrameStep.inferError ∉ rest :=
          fun hm => h (List.mem_cons_of_mem _ hm)
        simpa [run_camera, run_camera_loop] using hih.2 hrest

/-- Witness for `run_camera_release_characterization`: a run ending in a
failed frame read releases the handle. -/
theorem run_camera_release_characterization_witness :
    (run_camera [] (fun _ => "ts") false false 1 ⟨"u", 0⟩ []
      [FrameStep.readFail]).released = true :=
  (run_camera_release_characterization [] (fun _ => "ts") false false 1
    ⟨"u", 0⟩ [] [FrameStep.readFail]).2 (by decide)

end VD
